import Mathlib

/-
Verification development for the mysql-middleware repository.

The embedding translates the TypeScript sources into Lean:
  * src/errors/error.ts      -> JsErr, mkDatabaseError, mkTransactionError
  * src/lib/deadlock.ts      -> manageDeadlocks / mdGo
  * src/lib/query.ts         -> executeDbQuery / execAttempt / runSeqLoop / runPromiseAll
  * src/lib/object.ts        -> RegState, serializeConnection, deserializeConnection,
                                getDbObject, updateDbObject, dispatchDbObject, evictionFire
  * src/lib/transactions.ts  -> trInit, trQuery, trCommit, trRollback, trRetrieve
  * src/helpers/ref.ts       -> generateRefNo
  * src/index.ts             -> releaseConnection

JavaScript dynamic values that flow through untyped positions (sql, params,
query results) are modelled by the small universe JVal; JS `undefined` is
JVal.undef, and optional string fields of records are Option String with
none playing the role of undefined/absent.  Randomness (uuid) and the clock
(timestamp) are externalized as explicit string arguments.  Asynchronous
dispatch order is recorded as an event trace: the sequential for-loop in
query.ts awaits each statement before dispatching the next (disp q, comp q,
disp q', comp q', ...), while the Promise.all branch dispatches every
statement synchronously inside the map callback before any completion is
awaited (disp q, disp q', ..., comp q, comp q', ...).
-/

/-- Dynamic JavaScript values as far as the middleware inspects them:
strings, arrays, plain objects and undefined. -/
inductive JVal where
  | str (s : String)
  | arr (elems : List JVal)
  | obj (fields : List (String × JVal))
  | undef
deriving Repr

/-- Property lookup in an object's own fields, first binding wins. -/
def lookupField : List (String × JVal) → String → JVal
  | [], _ => JVal.undef
  | (k', v) :: rest, k => if k' = k then v else lookupField rest k

/-- JS property access `v.k` for the keys the middleware reads ("uuid",
"timestamp").  String and array primitives have no such own properties,
so the access yields undefined. -/
def JVal.getField : JVal → String → JVal
  | .obj fs, k => lookupField fs k
  | _, _ => JVal.undef

/-- Array.isArray. -/
def JVal.isArr : JVal → Bool
  | .arr _ => true
  | _ => false

/-- A thrown JS error as the middleware observes it: its constructor name
(for instanceof checks), its message, and its `code` property (none models
a plain error whose `code` is undefined). -/
structure JsErr where
  name : String
  message : String
  code : Option String
deriving Repr, DecidableEq

/-- Constructor `new DatabaseError(message, code)` from src/errors/error.ts:
the code defaults to "DB_ERR" when the second argument is undefined. -/
def mkDatabaseError (message : String) (code : Option String) : JsErr :=
  { name := "DatabaseError", message := message, code := some (code.getD "DB_ERR") }

/-- Constructor `new TransactionError(message, code)` from src/errors/error.ts:
the code defaults to "TRANSACTION_ERR" when the second argument is undefined. -/
def mkTransactionError (message : String) (code : Option String) : JsErr :=
  { name := "TransactionError", message := message, code := some (code.getD "TRANSACTION_ERR") }

/-- String interpolation of `error.code` (the sources interpolate the comma
expression `(error.message, error.code)`, which evaluates to `error.code`);
an undefined code prints as "undefined". -/
def jsCodeStr (e : JsErr) : String :=
  match e.code with
  | some c => c
  | none => "undefined"

/-- Contention test from src/lib/deadlock.ts:
`error.code === "ER_LOCK_DEADLOCK" || error.code === "ER_LOCK_WAIT_TIMEOUT"`. -/
def isContentionErr (e : JsErr) : Bool :=
  e.code == some "ER_LOCK_DEADLOCK" || e.code == some "ER_LOCK_WAIT_TIMEOUT"

/-- Dispatch/completion events of `connection.execute` calls; `disp q p`
records the call being issued, `comp q` records its promise settling. -/
inductive QEv where
  | disp (sql ps : JVal)
  | comp (sql : JVal)
deriving Repr

/-- Observable outcome of one run of the deadlock-managed executor:
how many times the wrapped operation was invoked, the backoff waits (in ms)
performed before each retry, the concatenated event trace of all attempts,
and the final settled value. -/
structure RunResult (α : Type) where
  attempts : Nat
  waits : List Nat
  trace : List QEv
  result : Except JsErr α

/-- Terminal throw of executeQueryWithRetries (src/lib/deadlock.ts):
`new DatabaseError("Database error after " + maxRetries + " retries: " + error.message)`. -/
def mdWrap (maxRetries : Nat) (e : JsErr) : JsErr :=
  mkDatabaseError ("Database error after " ++ toString maxRetries ++ " retries: " ++ e.message) none

/-- Recursion of executeQueryWithRetries from src/lib/deadlock.ts.  The
wrapped operation is a function of the attempt index (retryCount); `gas` is
maxRetries - retryCount, so the source guard `retryCount < maxRetries` is
the pattern `gas = g + 1` here (the entry point below starts at
gas = maxRetries, retryCount = 0, and every retry decrements gas while
incrementing retryCount). -/
def mdGo (maxRetries maxBackoffTime : Nat) (op : Nat → List QEv × Except JsErr α) :
    Nat → Nat → RunResult α
  | 0, rc =>
    match (op rc).2 with
    | .ok a => { attempts := 1, waits := [], trace := (op rc).1, result := .ok a }
    | .error e =>
      { attempts := 1, waits := [], trace := (op rc).1, result := .error (mdWrap maxRetries e) }
  | g + 1, rc =>
    match (op rc).2 with
    | .ok a => { attempts := 1, waits := [], trace := (op rc).1, result := .ok a }
    | .error e =>
      if isContentionErr e then
        let backoffTime := min (2 ^ rc * 100) maxBackoffTime
        let rest := mdGo maxRetries maxBackoffTime op g (rc + 1)
        { attempts := rest.attempts + 1, waits := backoffTime :: rest.waits,
          trace := (op rc).1 ++ rest.trace, result := rest.result }
      else
        { attempts := 1, waits := [], trace := (op rc).1, result := .error (mdWrap maxRetries e) }

/-- manageDeadlocks from src/lib/deadlock.ts: runs executeQueryWithRetries
starting at retryCount = 0 (the source default for maxBackoffTime, 8000 ms,
is passed explicitly by callers of this embedding). -/
def manageDeadlocks (maxRetries : Nat) (op : Nat → List QEv × Except JsErr α)
    (maxBackoffTime : Nat) : RunResult α :=
  mdGo maxRetries maxBackoffTime op maxRetries 0

/-- A mysql2 connection handle as used by the middleware: its threadId,
its statement executor (resolving to the [rows, fields] pair), and the
outcomes of its transaction/lifecycle primitives (none = resolves). -/
structure Conn where
  threadId : Nat
  execute : JVal → JVal → Except JsErr (JVal × JVal)
  beginErr : Option JsErr
  commitErr : Option JsErr
  rollbackErr : Option JsErr
  releaseErr : Option JsErr

/-- Options argument of executeDbQuery. -/
structure ExecOptions where
  parallel : Bool
deriving Repr, DecidableEq

/-- Evaluation of `options && options.parallel`. -/
def optParallel : Option ExecOptions → Bool
  | some o => o.parallel
  | none => false

/-- The for-loop branch of executeDbQuery (src/lib/query.ts): each
`await connection.execute(sql[i], params[i])` settles before the next
statement is dispatched; rows are pushed in input order; a rejection
aborts the loop and propagates. -/
def runSeqLoop (conn : Conn) : List (JVal × JVal) → List QEv × Except JsErr (List JVal)
  | [] => ([], .ok [])
  | (q, p) :: rest =>
    match conn.execute q p with
    | .ok (rows, _) =>
      let r := runSeqLoop conn rest
      (QEv.disp q p :: QEv.comp q :: r.1, r.2.map (fun l => rows :: l))
    | .error e => ([QEv.disp q p, QEv.comp q], .error e)

/-- Settling of Promise.all over the batch: the first (in index order)
rejection rejects the whole, otherwise the destructured rows are collected
in input order. -/
def collectAll : List (Except JsErr (JVal × JVal)) → Except JsErr (List JVal)
  | [] => .ok []
  | .error e :: _ => .error e
  | .ok (rows, _) :: rest => (collectAll rest).map (fun l => rows :: l)

/-- The Promise.all branch of executeDbQuery (src/lib/query.ts): the map
callback invokes `connection.execute(query, params[index])` synchronously
for every statement, so all dispatches precede all completions. -/
def runPromiseAll (conn : Conn) (pairs : List (JVal × JVal)) :
    List QEv × Except JsErr (List JVal) :=
  (pairs.map (fun qp => QEv.disp qp.1 qp.2) ++ pairs.map (fun qp => QEv.comp qp.1),
   collectAll (pairs.map (fun qp => conn.execute qp.1 qp.2)))

/-- One attempt of the query function passed to manageDeadlocks by
executeDbQuery (src/lib/query.ts lines 205-251), connection-overload case.
When sql is an array: a params mismatch throws
DatabaseError("Mismatched SQL queries and parameters.") before any execute
call; `options && options.parallel` selects the sequential for-loop and the
false/absent case selects Promise.all, exactly as in the source (whose own
doc comment describes the opposite pairing). -/
def execAttempt (conn : Conn) (sql params : JVal) (options : Option ExecOptions) :
    List QEv × Except JsErr JVal :=
  match sql with
  | .arr sqls =>
    match params with
    | .arr ps =>
      if sqls.length ≠ ps.length then
        ([], .error (mkDatabaseError "Mismatched SQL queries and parameters." none))
      else if optParallel options then
        let r := runSeqLoop conn (sqls.zip ps)
        (r.1, r.2.map JVal.arr)
      else
        let r := runPromiseAll conn (sqls.zip ps)
        (r.1, r.2.map JVal.arr)
    | _ => ([], .error (mkDatabaseError "Mismatched SQL queries and parameters." none))
  | s =>
    match conn.execute s params with
    | .ok (rows, _) => ([QEv.disp s params, QEv.comp s], .ok rows)
    | .error e => ([QEv.disp s params, QEv.comp s], .error e)

/-- executeDbQuery from src/lib/query.ts: the attempt wrapped by
manageDeadlocks(3, ..., default cap 8000).  `dbName` is accepted and ignored,
as in the source body. -/
def executeDbQuery (conn : Conn) (_dbName sql params : JVal)
    (options : Option ExecOptions) : RunResult JVal :=
  manageDeadlocks 3 (fun _ => execAttempt conn sql params options) 8000

/-- A registry entry (DatabaseObject of src/types plus the runtime-added
timestamp key): the owned connection handle, the transaction metadata, and
the string stored by `connectionData.timeoutId = timeoutId.toString()`.
Option String fields use none for a key that is absent or holds undefined. -/
structure DbRecord where
  connection : Conn
  referenceNo : Option String
  timestamp : Option String
  timeoutId : Option String

/-- An armed one-shot eviction timer: its id, the connection id its callback
deletes, and its fixed delay in ms. -/
structure TimerRec where
  tid : Nat
  cid : String
  delayMs : Nat
deriving Repr, DecidableEq

/-- The process state the middleware touches for one session: the
connectionId stored in the session (none = not set), the process-wide
connectionManager map, the armed timers, and the next fresh timer id.
The failure mode of a missing session object (framework misconfiguration,
checked by checkSessionObject) is outside the modelled states. -/
structure RegState where
  connId : Option String
  manager : List (String × DbRecord)
  activeTimers : List TimerRec
  nextTimer : Nat

/-- Map.get over the connectionManager. -/
def alLookup : List (String × DbRecord) → String → Option DbRecord
  | [], _ => none
  | (k', v) :: rest, k => if k' = k then some v else alLookup rest k

/-- Map.set over the connectionManager: replace the binding or append it. -/
def alSet : List (String × DbRecord) → String → DbRecord → List (String × DbRecord)
  | [], k, v => [(k, v)]
  | (k', v') :: rest, k, v =>
    if k' = k then (k, v) :: rest else (k', v') :: alSet rest k v

/-- Map.delete over the connectionManager. -/
def alErase (m : List (String × DbRecord)) (k : String) : List (String × DbRecord) :=
  m.filter (fun p => p.1 ≠ k)

/-- Disarming of a timer by its real identity: used when the eviction
callback fires (it is one-shot and also calls clearTimeout on the actual
Timeout object it closed over, which does resolve the timer). -/
def removeTimer (ts : List TimerRec) (tid : Nat) : List TimerRec :=
  ts.filter (fun t => t.tid ≠ tid)

/-- Evaluation of `timeoutId.toString()` on the Timeout object returned by
Node's setTimeout: Timeout has no own toString, so Object.prototype's
toString yields the constant "[object Object]" regardless of which timer
the object is (only Symbol.toPrimitive would surface the usable id). -/
def jsTimeoutToString (_tid : Nat) : String :=
  "[object Object]"

/-- clearTimeout called with a primitive instead of the Timeout object:
Node resolves a string argument against the known timers, which are keyed
by the decimal rendering of their ids; a string that names no timer
cancels nothing. -/
def clearTimeoutStr (ts : List TimerRec) (sid : String) : List TimerRec :=
  ts.filter (fun t => toString t.tid ≠ sid)

/-- getConnectionId from src/lib/object.ts: reads
req.session.tralse_db_mysql.connectionId and throws
DatabaseError("Connection is not yet initialized.", "CONN_NOT_INIT") when
the slot is unset or falsy (empty string); the catch re-wraps preserving
message and code. -/
def getConnectionId (s : RegState) : Except JsErr String :=
  match s.connId with
  | some id =>
    if id = "" then
      .error (mkDatabaseError "Connection is not yet initialized." (some "CONN_NOT_INIT"))
    else .ok id
  | none => .error (mkDatabaseError "Connection is not yet initialized." (some "CONN_NOT_INIT"))

/-- deserializeConnection from src/lib/object.ts (lines 340-368): resolves
the session-stored id in the connectionManager; a missing key throws
DatabaseError("Connection is not yet initialized. Connection key not
found.", "CONN_NOT_INIT"); the catch re-wraps as
DatabaseError(error.message, error.code). -/
def deserializeConnection (s : RegState) : Except JsErr (String × DbRecord) :=
  match getConnectionId s with
  | .error e => .error (mkDatabaseError e.message e.code)
  | .ok id =>
    match alLookup s.manager id with
    | some data => .ok (id, data)
    | none =>
      .error (mkDatabaseError "Connection is not yet initialized. Connection key not found."
        (some "CONN_NOT_INIT"))

/-- getDbObject from src/lib/object.ts: the data component of
deserializeConnection, failures re-wrapped as
DatabaseError(error.message, error.code). -/
def getDbObject (s : RegState) : Except JsErr DbRecord :=
  match deserializeConnection s with
  | .error e => .error (mkDatabaseError e.message e.code)
  | .ok idData => .ok idData.2

/-- serializeConnection from src/lib/object.ts (lines 287-331): stores the
id derived from the handle's threadId into the session, inserts the record
into the connectionManager, then arms one eviction timer with the fixed
window TIMEOUT_WITHIN = 60000 ms and stores `timeoutId.toString()` on the
record (the record object is mutated after insertion, so the stored record
carries the string — which, being "[object Object]", can never identify
the timer). -/
def serializeConnection (conn : Conn) (s : RegState) : RegState :=
  let connectionId := toString conn.threadId
  let tid := s.nextTimer
  { connId := some connectionId,
    manager := alSet s.manager connectionId
      { connection := conn, referenceNo := none, timestamp := none,
        timeoutId := some (jsTimeoutToString tid) },
    activeTimers := { tid := tid, cid := connectionId, delayMs := 60000 } :: s.activeTimers,
    nextTimer := tid + 1 }

/-- The eviction callback armed by serializeConnection: when the timer is
still active it deletes its connection id from the connectionManager and
disarms itself; a cancelled timer never fires. -/
def evictionFire (tid : Nat) (s : RegState) : RegState :=
  match s.activeTimers.find? (fun t => t.tid == tid) with
  | some tm =>
    { s with manager := alErase s.manager tm.cid,
             activeTimers := removeTimer s.activeTimers tid }
  | none => s

/-- updateDbObject from src/lib/object.ts (lines 402-427) at its only call
shape (updateData = referenceNo and timestamp keys): merges the fields onto
the current record via spread, preserving connection and timeoutId; fails
like deserializeConnection when the session has no live registration. -/
def updateDbObject (refNo ts : Option String) (s : RegState) :
    Except JsErr Unit × RegState :=
  match deserializeConnection s with
  | .error e => (.error (mkDatabaseError e.message e.code), s)
  | .ok (id, data) =>
    if id ≠ "" then
      let merged := { data with referenceNo := refNo, timestamp := ts }
      (.ok (), { s with manager := alSet s.manager id merged })
    else (.error (mkDatabaseError "Invalid connection data." none), s)

/-- dispatchDbObject from src/lib/object.ts (lines 435-470): resolves the
registration, calls `clearTimeout(connectionData.timeoutId)` on the stored
string when one exists, and deletes the record from the connectionManager;
failures re-wrap like the other registry operations.  Because the stored
string is the Timeout object's toString, the clearTimeout resolves no
timer. -/
def dispatchDbObject (s : RegState) : Except JsErr Unit × RegState :=
  match deserializeConnection s with
  | .error e => (.error (mkDatabaseError e.message e.code), s)
  | .ok (id, _) =>
    if id ≠ "" then
      match alLookup s.manager id with
      | some connectionData =>
        let timers :=
          match connectionData.timeoutId with
          | some sid => clearTimeoutStr s.activeTimers sid
          | none => s.activeTimers
        (.ok (), { s with manager := alErase s.manager id, activeTimers := timers })
      | none => (.ok (), { s with manager := alErase s.manager id })
    else (.error (mkDatabaseError "Invalid connection ID." none), s)

/-- generateRefNo from src/helpers/ref.ts: the uuid and the formatted
timestamp (both externalized as arguments) concatenated with a dash into
one string. -/
def generateRefNo (uuid timestamp : String) : JVal :=
  JVal.str (uuid ++ "-" ++ timestamp)

/-- Coercion of a dynamic field value into an optional-string record slot:
a string stays, anything else (only undefined arises at the call sites)
becomes the absent/undefined value. -/
def jsFieldToOpt : JVal → Option String
  | .str s => some s
  | _ => none

/-- JS truthiness of an optional string field (`!dbObject.referenceNo`):
undefined/absent and the empty string are falsy. -/
def truthyOptStr : Option String → Bool
  | some s => s ≠ ""
  | none => false

/-- Catch block shared by init and query in src/lib/transactions.ts: an
error that is instanceof DatabaseError or TransactionError is replaced by
`new TransactionError("Failed to initialize transaction: " + code)` (the
interpolated comma expression evaluates to error.code), any other error is
rethrown unchanged. -/
def trInitCatch (e : JsErr) : JsErr :=
  if e.name = "DatabaseError" ∨ e.name = "TransactionError" then
    mkTransactionError ("Failed to initialize transaction: " ++ jsCodeStr e) none
  else e

/-- init from src/lib/transactions.ts: looks up the registered record and
begins a transaction on its connection. -/
def trInit (s : RegState) : Except JsErr Unit × RegState :=
  match getDbObject s with
  | .error e => (.error (trInitCatch e), s)
  | .ok dbObject =>
    match dbObject.connection.beginErr with
    | none => (.ok (), s)
    | some e => (.error (trInitCatch e), s)

/-- query from src/lib/transactions.ts (lines 67-110).  The source calls
`executeDbQuery(connection, sql, params)` against the (connection, dbName,
sql, params, options) signature of src/lib/query.ts, so positionally the
caller's sql lands in the dbName slot, the caller's params land in the sql
slot, params defaults to [] and options is undefined.  On success it
destructures `const { uuid, timestamp } = systemGenerateReferenceNo()` from
the string returned by generateRefNo (property access on a string yields
undefined for both keys) and merges them into the record via updateDbObject. -/
def trQuery (uuid ts : String) (sql params : JVal) (s : RegState) :
    Except JsErr JVal × RegState :=
  match getDbObject s with
  | .error e => (.error (trInitCatch e), s)
  | .ok dbObject =>
    let r := executeDbQuery dbObject.connection sql params (JVal.arr []) none
    match r.result with
    | .error e => (.error (trInitCatch e), s)
    | .ok queryResult =>
      let refVal := generateRefNo uuid ts
      let uuidField := jsFieldToOpt (refVal.getField "uuid")
      let tsField := jsFieldToOpt (refVal.getField "timestamp")
      match updateDbObject uuidField tsField s with
      | (.ok _, s') => (.ok queryResult, s')
      | (.error e, s') => (.error (trInitCatch e), s')

/-- Catch block of commit in src/lib/transactions.ts: a CONN_NOT_INIT code
keeps its message and code, any other failure becomes
`new TransactionError("Failed to commit transaction: " + code)` with the
default code. -/
def trCommitCatch (e : JsErr) : JsErr :=
  if e.code ≠ some "CONN_NOT_INIT" then
    mkTransactionError ("Failed to commit transaction: " ++ jsCodeStr e) none
  else mkTransactionError e.message e.code

/-- commit from src/lib/transactions.ts: commits on the registered
connection; it does not touch the registry record, so referenceNo and
timestamp survive a commit. -/
def trCommit (s : RegState) : Except JsErr Unit × RegState :=
  match getDbObject s with
  | .error e => (.error (trCommitCatch e), s)
  | .ok dbObject =>
    match dbObject.connection.commitErr with
    | none => (.ok (), s)
    | some e => (.error (trCommitCatch e), s)

/-- Catch block of rollback in src/lib/transactions.ts:
`new TransactionError("Failed to rollback transaction: " + code, error.code)`. -/
def trRollbackCatch (e : JsErr) : JsErr :=
  mkTransactionError ("Failed to rollback transaction: " ++ jsCodeStr e) e.code

/-- rollback from src/lib/transactions.ts (lines 149-174): requires a
registered record with a truthy referenceNo, otherwise throws
DatabaseError("Database object or connection is undefined.") which the
catch wraps; a registry miss propagates through the same catch. -/
def trRollback (s : RegState) : Except JsErr Unit × RegState :=
  match getDbObject s with
  | .error e => (.error (trRollbackCatch e), s)
  | .ok dbObject =>
    if truthyOptStr dbObject.referenceNo then
      match dbObject.connection.rollbackErr with
      | none => (.ok (), s)
      | some e => (.error (trRollbackCatch e), s)
    else
      (.error (trRollbackCatch (mkDatabaseError "Database object or connection is undefined." none)), s)

/-- Snapshot returned by retrieve: the record without timeoutId, with the
connection handle replaced by its truthiness. -/
structure RetrieveResult where
  connection : Bool
  referenceNo : Option String
  timestamp : Option String
deriving Repr, DecidableEq

/-- retrieve from src/lib/transactions.ts: a read-only projection of the
registered record ({ timeoutId, ...rest } spread plus `!!connection`, and a
connection handle object is always truthy); registry failures are rethrown
unchanged. -/
def trRetrieve (s : RegState) : Except JsErr RetrieveResult :=
  match getDbObject s with
  | .error e => .error e
  | .ok dbObject =>
    .ok { connection := true, referenceNo := dbObject.referenceNo,
          timestamp := dbObject.timestamp }

/-- releaseConnection from src/index.ts (lines 80-93): looks up the record,
removes it via dispatchDbObject, then releases the pool handle; the catch
returns normally when the failure's code is CONN_NOT_INIT and otherwise
rethrows `new DatabaseError(error.message, error.code)`. -/
def releaseConnection (s : RegState) : Except JsErr Unit × RegState :=
  match getDbObject s with
  | .error e =>
    if e.code == some "CONN_NOT_INIT" then (.ok (), s)
    else (.error (mkDatabaseError e.message e.code), s)
  | .ok dbObject =>
    match dispatchDbObject s with
    | (.error e, s') =>
      if e.code == some "CONN_NOT_INIT" then (.ok (), s')
      else (.error (mkDatabaseError e.message e.code), s')
    | (.ok _, s') =>
      match dbObject.connection.releaseErr with
      | none => (.ok (), s')
      | some e =>
        if e.code == some "CONN_NOT_INIT" then (.ok (), s')
        else (.error (mkDatabaseError e.message e.code), s')

/-- Concrete connection whose executor echoes the statement as its rows. -/
def connOk : Conn :=
  { threadId := 7, execute := fun q _ => .ok (q, JVal.undef),
    beginErr := none, commitErr := none, rollbackErr := none, releaseErr := none }

/-- Concrete connection whose pool release rejects with a driver error. -/
def relFailErr : JsErr := { name := "Error", message := "release failed", code := none }

/-- Connection with a failing release, for exercising releaseConnection. -/
def connRelFail : Conn :=
  { threadId := 9, execute := fun q _ => .ok (q, JVal.undef),
    beginErr := none, commitErr := none, rollbackErr := none, releaseErr := some relFailErr }

/-- State of a fresh session: nothing registered. -/
def st0 : RegState := { connId := none, manager := [], activeTimers := [], nextTimer := 0 }

/-- State after acquiring a connection (registration of connOk). -/
def st1 : RegState := serializeConnection connOk st0

/-- The record stored for connOk at registration. -/
def rec7 : DbRecord :=
  { connection := connOk, referenceNo := none, timestamp := none,
    timeoutId := some (jsTimeoutToString 0) }

/-- State after a transaction query ran in st1. -/
def st2 : RegState := (trQuery "u0" "t0" (JVal.str "SELECT 1") (JVal.arr []) st1).2

/-- State after registering the connection whose release fails. -/
def stRel : RegState := serializeConnection connRelFail st0

/-- The record stored for connRelFail at registration. -/
def recRel : DbRecord :=
  { connection := connRelFail, referenceNo := none, timestamp := none,
    timeoutId := some (jsTimeoutToString 0) }

/-- A lock-contention driver error. -/
def deadErr : JsErr :=
  { name := "Error", message := "Deadlock found when trying to get lock",
    code := some "ER_LOCK_DEADLOCK" }

/-- An operation that always rejects with the contention error. -/
def opDead : Nat → List QEv × Except JsErr JVal := fun _ => ([], .error deadErr)

/-- A plain driver error with no code. -/
def plainErr : JsErr := { name := "Error", message := "boom", code := none }

/-- An operation that always rejects with the plain error. -/
def opPlain : Nat → List QEv × Except JsErr JVal := fun _ => ([], .error plainErr)

/-- Two-statement batch for the dispatch-order scenarios. -/
def sqlAB : JVal := JVal.arr [JVal.str "A", JVal.str "B"]

/-- Matching parameter lists for sqlAB. -/
def paramsAB : JVal := JVal.arr [JVal.arr [], JVal.arr []]

/-- The registry error thrown when the session-stored key has no record. -/
def cniKeyErr : JsErr :=
  mkDatabaseError "Connection is not yet initialized. Connection key not found."
    (some "CONN_NOT_INIT")

theorem alLookup_alErase_self (m : List (String × DbRecord)) (k : String) :
    alLookup (alErase m k) k = none := by
  induction m with
  | nil => rfl
  | cons p rest ih =>
    by_cases h : p.1 = k
    · simp [alErase, List.filter_cons, h] at ih ⊢
      exact ih
    · simp [alErase, List.filter_cons, h, alLookup] at ih ⊢
      exact ih

theorem alLookup_alSet_self (m : List (String × DbRecord)) (k : String) (v : DbRecord) :
    alLookup (alSet m k v) k = some v := by
  induction m with
  | nil => simp [alSet, alLookup]
  | cons p rest ih =>
    by_cases h : p.1 = k
    · simp [alSet, h, alLookup]
    · simp [alSet, h, alLookup, ih]

theorem deserialize_err_shape (s : RegState) (e : JsErr)
    (h : deserializeConnection s = .error e) :
    e.name = "DatabaseError" ∧ e.code = some "CONN_NOT_INIT" := by
  cases hc : s.connId with
  | none =>
    simp [deserializeConnection, getConnectionId, hc, mkDatabaseError] at h
    rw [← h]
    exact ⟨rfl, rfl⟩
  | some id =>
    by_cases hid : id = ""
    · simp [deserializeConnection, getConnectionId, hc, hid, mkDatabaseError] at h
      rw [← h]
      exact ⟨rfl, rfl⟩
    · cases hl : alLookup s.manager id with
      | none =>
        simp [deserializeConnection, getConnectionId, hc, hid, hl, mkDatabaseError] at h
        rw [← h]
        exact ⟨rfl, rfl⟩
      | some data =>
        simp [deserializeConnection, getConnectionId, hc, hid, hl] at h

theorem getDbObject_of_deserialize_err (s : RegState) (e : JsErr)
    (h : deserializeConnection s = .error e) : getDbObject s = .error e := by
  obtain ⟨hn, hcode⟩ := deserialize_err_shape s e h
  cases e with
  | mk name message code =>
    simp only at hn hcode
    subst hn
    subst hcode
    simp [getDbObject, h, mkDatabaseError]

theorem deserialize_ok (s : RegState) (id : String) (rec : DbRecord)
    (h1 : s.connId = some id) (h2 : id ≠ "") (h3 : alLookup s.manager id = some rec) :
    deserializeConnection s = .ok (id, rec) := by
  simp [deserializeConnection, getConnectionId, h1, h2, h3]

theorem updateDbObject_activeTimers (a b : Option String) (st : RegState) :
    (updateDbObject a b st).2.activeTimers = st.activeTimers := by
  cases hdes : deserializeConnection st with
  | error e => simp [updateDbObject, hdes]
  | ok idData =>
    by_cases hid : idData.1 = ""
    · simp [updateDbObject, hdes, hid]
    · simp [updateDbObject, hdes, hid]

theorem mdGo_error_shape (mr mB : Nat) (op : Nat → List QEv × Except JsErr JVal) :
    ∀ (gas rc : Nat) (e' : JsErr), (mdGo mr mB op gas rc).result = .error e' →
      ∃ m, e' = mkDatabaseError
        ("Database error after " ++ toString mr ++ " retries: " ++ m) none := by
  intro gas
  induction gas with
  | zero =>
    intro rc e' h
    cases hop : (op rc).2 with
    | ok a => simp [mdGo, hop] at h
    | error e =>
      simp [mdGo, hop, mdWrap] at h
      exact ⟨e.message, h.symm⟩
  | succ g ih =>
    intro rc e' h
    cases hop : (op rc).2 with
    | ok a => simp [mdGo, hop] at h
    | error e =>
      by_cases hc : isContentionErr e
      · simp [mdGo, hop, hc] at h
        exact ih (rc + 1) e' h
      · simp [mdGo, hop, hc, mdWrap] at h
        exact ⟨e.message, h.symm⟩

/-- C1: on the batch ["A", "B"] with matching params, the code runs the
sequential await-per-statement loop when options.parallel is true (trace
disp A, comp A, disp B, comp B) and the concurrent Promise.all dispatch
when options is absent (trace disp A, disp B, comp A, comp B) — the
opposite pairing from the claim; both modes do recombine the results in
input order. -/
theorem claim_C1 :
    (executeDbQuery connOk (JVal.str "db") sqlAB paramsAB (some { parallel := true })).trace =
      [QEv.disp (JVal.str "A") (JVal.arr []), QEv.comp (JVal.str "A"),
       QEv.disp (JVal.str "B") (JVal.arr []), QEv.comp (JVal.str "B")] ∧
    (executeDbQuery connOk (JVal.str "db") sqlAB paramsAB none).trace =
      [QEv.disp (JVal.str "A") (JVal.arr []), QEv.disp (JVal.str "B") (JVal.arr []),
       QEv.comp (JVal.str "A"), QEv.comp (JVal.str "B")] ∧
    (executeDbQuery connOk (JVal.str "db") sqlAB paramsAB (some { parallel := true })).result =
      .ok (JVal.arr [JVal.str "A", JVal.str "B"]) ∧
    (executeDbQuery connOk (JVal.str "db") sqlAB paramsAB none).result =
      .ok (JVal.arr [JVal.str "A", JVal.str "B"]) :=
  ⟨rfl, rfl, rfl, rfl⟩

/-- C2: after registering a connection, init() and a transaction
query("SELECT 1") both succeed, but the subsequent retrieve() reports the
connection flag true with referenceNo and timestamp both undefined —
generateRefNo returns the string "uuid-timestamp", whose destructuring as
an object yields undefined for both keys — and commit() leaves the record
unchanged, so a later retrieve() still shows the undefined metadata. -/
theorem claim_C2 :
    (trInit st1).1 = .ok () ∧
    (trQuery "u0" "t0" (JVal.str "SELECT 1") (JVal.arr []) st1).1 = .ok (JVal.arr []) ∧
    trRetrieve st2 = .ok { connection := true, referenceNo := none, timestamp := none } ∧
    (trCommit st2).1 = .ok () ∧
    (trCommit st2).2 = st2 ∧
    trRetrieve (trCommit st2).2 =
      .ok { connection := true, referenceNo := none, timestamp := none } :=
  ⟨rfl, rfl, rfl, rfl, rfl, rfl⟩

/-- C3 counterexample: on a session with no registered connection, rollback
does not return normally; it throws a TransactionError carrying the
CONN_NOT_INIT code. -/
theorem claim_C3_counterexample :
    (trRollback st0).1 =
      .error (mkTransactionError "Failed to rollback transaction: CONN_NOT_INIT"
        (some "CONN_NOT_INIT")) := rfl

/-- C3 (amended): for every session whose registry lookup fails, rollback()
throws TransactionError("Failed to rollback transaction: CONN_NOT_INIT",
"CONN_NOT_INIT") and leaves the state unchanged, instead of the claimed
benign no-op. -/
theorem claim_C3 (s : RegState) (e : JsErr) (h : deserializeConnection s = .error e) :
    (trRollback s).1 =
      .error (mkTransactionError "Failed to rollback transaction: CONN_NOT_INIT"
        (some "CONN_NOT_INIT")) ∧
    (trRollback s).2 = s := by
  obtain ⟨hn, hcode⟩ := deserialize_err_shape s e h
  have hget := getDbObject_of_deserialize_err s e h
  constructor
  · simp [trRollback, hget, trRollbackCatch, jsCodeStr, hcode, mkTransactionError]
  · simp [trRollback, hget]

/-- C3 witness: the amended statement evaluated on the fresh state. -/
theorem claim_C3_witness :
    (trRollback st0).1 =
      .error (mkTransactionError "Failed to rollback transaction: CONN_NOT_INIT"
        (some "CONN_NOT_INIT")) ∧
    (trRollback st0).2 = st0 :=
  claim_C3 st0 (mkDatabaseError "Connection is not yet initialized." (some "CONN_NOT_INIT")) rfl

/-- C4: for every state with a live registration, a lookup performed after
the record is released (dispatchDbObject) or evicted by its timer fails
with the DatabaseError carrying code CONN_NOT_INIT; no stale record is
returned. -/
theorem claim_C4 (s : RegState) (id : String) (rec : DbRecord)
    (h1 : s.connId = some id) (h2 : id ≠ "") (h3 : alLookup s.manager id = some rec) :
    deserializeConnection (dispatchDbObject s).2 = .error cniKeyErr ∧
    ∀ (tid : Nat) (tm : TimerRec),
      s.activeTimers.find? (fun t => t.tid == tid) = some tm → tm.cid = id →
      deserializeConnection (evictionFire tid s) = .error cniKeyErr := by
  have hdes := deserialize_ok s id rec h1 h2 h3
  constructor
  · have hstate : (dispatchDbObject s).2.connId = s.connId ∧
        (dispatchDbObject s).2.manager = alErase s.manager id := by
      simp [dispatchDbObject, hdes, h2, h3]
    simp [deserializeConnection, getConnectionId, hstate.1, h1, h2, hstate.2,
      alLookup_alErase_self, cniKeyErr]
  · intro tid tm hfind hcid
    simp [evictionFire, hfind, deserializeConnection, getConnectionId, h1, h2, hcid,
      alLookup_alErase_self, cniKeyErr]

/-- C4 witness: lookup after release and lookup after eviction on the
registered state st1 both fail with the CONN_NOT_INIT error. -/
theorem claim_C4_witness :
    deserializeConnection (dispatchDbObject st1).2 = .error cniKeyErr ∧
    deserializeConnection (evictionFire 0 st1) = .error cniKeyErr :=
  ⟨(claim_C4 st1 "7" rec7 rfl (by decide) rfl).1,
   (claim_C4 st1 "7" rec7 rfl (by decide) rfl).2 0 ⟨0, "7", 60000⟩ rfl rfl⟩

/-- C5: an operation that always rejects with a contention-coded error,
run under manageDeadlocks with maxRetries = 3, is attempted exactly 4
times, with backoff waits min(2^0*100, cap), min(2^1*100, cap),
min(2^2*100, cap) before the retries, and the surfaced failure is the
DatabaseError wrapping the final attempt's message after exhaustion. -/
theorem claim_C5 (cap : Nat) (op : Nat → List QEv × Except JsErr JVal)
    (hcon : ∀ n, ∃ e, (op n).2 = .error e ∧ isContentionErr e = true) :
    (manageDeadlocks 3 op cap).attempts = 4 ∧
    (manageDeadlocks 3 op cap).waits = [min 100 cap, min 200 cap, min 400 cap] ∧
    ∀ e, (op 3).2 = .error e →
      (manageDeadlocks 3 op cap).result =
        .error (mkDatabaseError ("Database error after 3 retries: " ++ e.message) none) := by
  obtain ⟨e0, h0, c0⟩ := hcon 0
  obtain ⟨e1, h1, c1⟩ := hcon 1
  obtain ⟨e2, h2, c2⟩ := hcon 2
  obtain ⟨e3, h3, c3⟩ := hcon 3
  refine ⟨?_, ?_, ?_⟩
  · simp [manageDeadlocks, mdGo, h0, c0, h1, c1, h2, c2, h3, c3]
  · simp [manageDeadlocks, mdGo, h0, c0, h1, c1, h2, c2, h3, c3]
  · intro e he
    rw [h3] at he
    injection he with he
    subst he
    simp only [manageDeadlocks, mdGo, h0, c0, h1, c1, h2, c2, h3, c3, mdWrap, if_true]
    rfl

/-- C5 witness: the always-deadlocking operation with the default backoff
cap is attempted 4 times with waits 100, 200, 400 ms and surfaces the
wrapped final error. -/
theorem claim_C5_witness :
    (manageDeadlocks 3 opDead 8000).attempts = 4 ∧
    (manageDeadlocks 3 opDead 8000).waits = [min 100 8000, min 200 8000, min 400 8000] ∧
    (manageDeadlocks 3 opDead 8000).result =
      .error (mkDatabaseError ("Database error after 3 retries: " ++ deadErr.message) none) :=
  have h := claim_C5 8000 opDead (fun _ => ⟨deadErr, rfl, rfl⟩)
  ⟨h.1, h.2.1, h.2.2 deadErr rfl⟩

/-- C6: an operation whose first failure is not contention-coded is not
retried: one attempt, no backoff waits, and the failure is surfaced
immediately (as the DatabaseError wrap). -/
theorem claim_C6 (mr cap : Nat) (op : Nat → List QEv × Except JsErr JVal) (e : JsErr)
    (h : (op 0).2 = .error e) (hnc : isContentionErr e = false) :
    (manageDeadlocks mr op cap).attempts = 1 ∧
    (manageDeadlocks mr op cap).waits = [] ∧
    (manageDeadlocks mr op cap).result = .error (mdWrap mr e) := by
  cases mr with
  | zero => simp [manageDeadlocks, mdGo, h]
  | succ g => simp [manageDeadlocks, mdGo, h, hnc]

/-- C6 witness: a plain uncoded error propagates after a single attempt
with no waits. -/
theorem claim_C6_witness :
    (manageDeadlocks 3 opPlain 8000).attempts = 1 ∧
    (manageDeadlocks 3 opPlain 8000).waits = [] ∧
    (manageDeadlocks 3 opPlain 8000).result = .error (mdWrap 3 plainErr) :=
  claim_C6 3 8000 opPlain plainErr rfl rfl

/-- C7: when sql is a list and params is not a list or has a different
length, executeDbQuery performs no execute call (empty trace), makes a
single non-retried attempt with no waits, and surfaces the wrapped
mismatched-parameters DatabaseError. -/
theorem claim_C7 (conn : Conn) (dbName : JVal) (sqls : List JVal) (params : JVal)
    (options : Option ExecOptions)
    (hmm : params.isArr = false ∨ ∃ ps, params = JVal.arr ps ∧ ps.length ≠ sqls.length) :
    (executeDbQuery conn dbName (JVal.arr sqls) params options).trace = [] ∧
    (executeDbQuery conn dbName (JVal.arr sqls) params options).attempts = 1 ∧
    (executeDbQuery conn dbName (JVal.arr sqls) params options).waits = [] ∧
    (executeDbQuery conn dbName (JVal.arr sqls) params options).result =
      .error (mkDatabaseError
        "Database error after 3 retries: Mismatched SQL queries and parameters." none) := by
  have hatt : execAttempt conn (JVal.arr sqls) params options =
      ([], .error (mkDatabaseError "Mismatched SQL queries and parameters." none)) := by
    rcases hmm with hna | ⟨ps, hps, hlen⟩
    · cases params with
      | str s => rfl
      | arr l => simp [JVal.isArr] at hna
      | obj fs => rfl
      | undef => rfl
    · subst hps
      have hlen' : sqls.length ≠ ps.length := fun hx => hlen hx.symm
      simp [execAttempt, hlen']
  refine ⟨?_, ?_, ?_, ?_⟩ <;>
    simp [executeDbQuery, manageDeadlocks, mdGo, hatt, isContentionErr, mkDatabaseError,
      mdWrap]
  rfl

/-- C7 witness: a one-statement batch with an empty params list raises the
configuration error with zero dispatches. -/
theorem claim_C7_witness :
    (executeDbQuery connOk (JVal.str "db") (JVal.arr [JVal.str "A"]) (JVal.arr []) none).trace
      = [] ∧
    (executeDbQuery connOk (JVal.str "db") (JVal.arr [JVal.str "A"]) (JVal.arr []) none).attempts
      = 1 ∧
    (executeDbQuery connOk (JVal.str "db") (JVal.arr [JVal.str "A"]) (JVal.arr []) none).waits
      = [] ∧
    (executeDbQuery connOk (JVal.str "db") (JVal.arr [JVal.str "A"]) (JVal.arr []) none).result =
      .error (mkDatabaseError
        "Database error after 3 retries: Mismatched SQL queries and parameters." none) :=
  claim_C7 connOk (JVal.str "db") [JVal.str "A"] (JVal.arr []) none
    (Or.inr ⟨[], rfl, by decide⟩)

/-- C8: releaseConnection swallows a CONN_NOT_INIT failure (already
released session) and returns normally, while any other failure during
release — here a rejecting pool release — is surfaced as
DatabaseError(message, code). -/
theorem claim_C8 :
    (∀ (s : RegState) (e : JsErr), getDbObject s = .error e → e.code = some "CONN_NOT_INIT" →
        releaseConnection s = (.ok (), s)) ∧
    (∀ (s : RegState) (id : String) (rec : DbRecord) (e : JsErr),
        s.connId = some id → id ≠ "" → alLookup s.manager id = some rec →
        rec.connection.releaseErr = some e → e.code ≠ some "CONN_NOT_INIT" →
        (releaseConnection s).1 = .error (mkDatabaseError e.message e.code)) := by
  constructor
  · intro s e h hc
    simp [releaseConnection, h, hc]
  · intro s id rec e h1 h2 h3 hrel hc
    have hdes := deserialize_ok s id rec h1 h2 h3
    simp [releaseConnection, getDbObject, hdes, dispatchDbObject, h2, h3, hrel, hc]

/-- C8 witness: release on an unregistered session succeeds, and release
whose pool handle rejects surfaces the wrapped driver error. -/
theorem claim_C8_witness :
    releaseConnection st0 = (.ok (), st0) ∧
    (releaseConnection stRel).1 = .error (mkDatabaseError relFailErr.message relFailErr.code) :=
  ⟨claim_C8.1 st0
      (mkDatabaseError "Connection is not yet initialized." (some "CONN_NOT_INIT")) rfl rfl,
   claim_C8.2 stRel "9" recRel relFailErr rfl (by decide) rfl rfl (by decide)⟩

/-- C9: registration arms exactly one timer with the fixed 60000 ms window
but stores only `timeoutId.toString()` — the constant "[object Object]" —
on the record, and a transaction query does not reset the timer; on
explicit release the record is removed yet `clearTimeout("[object
Object]")` resolves no timer, so the eviction timer stays armed after
release; re-registering the same connection and letting the stale timer
fire then destroys the fresh record, whose lookup fails with CONN_NOT_INIT
— timer-driven eviction and explicit release are not mutually exclusive
destruction paths. -/
theorem claim_C9 :
    st1.activeTimers = [{ tid := 0, cid := "7", delayMs := 60000 }] ∧
    alLookup st1.manager "7" =
      some { connection := connOk, referenceNo := none, timestamp := none,
             timeoutId := some "[object Object]" } ∧
    (trQuery "u0" "t0" (JVal.str "SELECT 1") (JVal.arr []) st1).2.activeTimers =
      st1.activeTimers ∧
    alLookup (dispatchDbObject st1).2.manager "7" = none ∧
    (dispatchDbObject st1).2.activeTimers = [{ tid := 0, cid := "7", delayMs := 60000 }] ∧
    alLookup (serializeConnection connOk (dispatchDbObject st1).2).manager "7" =
      some { connection := connOk, referenceNo := none, timestamp := none,
             timeoutId := some "[object Object]" } ∧
    deserializeConnection
        (evictionFire 0 (serializeConnection connOk (dispatchDbObject st1).2)) =
      .error cniKeyErr :=
  ⟨rfl, rfl, rfl, rfl, rfl, rfl, rfl⟩

/-- C10: every failure surfaced by manageDeadlocks — and hence by every
executeDbQuery — is a DatabaseError with the default code "DB_ERR" whose
message embeds maxRetries; the wrapped operation's original error code is
not preserved on the surfaced error. -/
theorem claim_C10 :
    (∀ (mr cap : Nat) (op : Nat → List QEv × Except JsErr JVal) (e' : JsErr),
       (manageDeadlocks mr op cap).result = .error e' →
       e'.name = "DatabaseError" ∧ e'.code = some "DB_ERR" ∧
       ∃ m, e'.message = "Database error after " ++ toString mr ++ " retries: " ++ m) ∧
    (∀ (conn : Conn) (dbName sql params : JVal) (options : Option ExecOptions) (e' : JsErr),
       (executeDbQuery conn dbName sql params options).result = .error e' →
       e'.name = "DatabaseError" ∧ e'.code = some "DB_ERR" ∧
       ∃ m, e'.message = "Database error after 3 retries: " ++ m) := by
  constructor
  · intro mr cap op e' h
    obtain ⟨m, hm⟩ := mdGo_error_shape mr cap op mr 0 e' h
    subst hm
    exact ⟨rfl, rfl, ⟨m, rfl⟩⟩
  · intro conn dbName sql params options e' h
    obtain ⟨m, hm⟩ :=
      mdGo_error_shape 3 8000 (fun _ => execAttempt conn sql params options) 3 0 e' h
    subst hm
    exact ⟨rfl, rfl, ⟨m, rfl⟩⟩

/-- C10 witness: the wrap surfaced for the uncoded error at maxRetries = 0
carries the DatabaseError name, the DB_ERR code, and the retry-embedding
message. -/
theorem claim_C10_witness :
    (mdWrap 0 plainErr).name = "DatabaseError" ∧ (mdWrap 0 plainErr).code = some "DB_ERR" ∧
    ∃ m, (mdWrap 0 plainErr).message = "Database error after " ++ toString 0 ++ " retries: " ++ m :=
  claim_C10.1 0 0 opPlain (mdWrap 0 plainErr) rfl
